import Mathlib

/-!
Verification development for the `validatools` repository, centred on the
monthly-profitability engine (`src/ts/src/monthly-profitability/index.ts`
and the near-identical variant in `src/unnamed/part_005`).

JavaScript numbers are modelled by `JSNum`: finite values are exact
rationals (an idealisation of IEEE doubles: the finite arithmetic here is
exact, while the special values Infinity, -Infinity and NaN follow the
IEEE/JS rules, which is what the claims about division by zero exercise).
The negative zero of IEEE is identified with 0.
-/

namespace Validatools

/-- A JavaScript number: a finite rational, an infinity, or NaN. -/
inductive JSNum where
  | fin (q : ℚ)
  | posInf
  | negInf
  | nan
  deriving DecidableEq, Repr

namespace JSNum

/-- JS unary minus. -/
def jneg : JSNum → JSNum
  | .fin q => .fin (-q)
  | .posInf => .negInf
  | .negInf => .posInf
  | .nan => .nan

/-- JS addition. -/
def jadd : JSNum → JSNum → JSNum
  | .nan, _ => .nan
  | _, .nan => .nan
  | .posInf, .negInf => .nan
  | .negInf, .posInf => .nan
  | .posInf, _ => .posInf
  | _, .posInf => .posInf
  | .negInf, _ => .negInf
  | _, .negInf => .negInf
  | .fin a, .fin b => .fin (a + b)

/-- JS subtraction (`a - b = a + (-b)`). -/
def jsub (a b : JSNum) : JSNum := jadd a (jneg b)

/-- JS multiplication. -/
def jmul : JSNum → JSNum → JSNum
  | .nan, _ => .nan
  | _, .nan => .nan
  | .fin a, .fin b => .fin (a * b)
  | .posInf, .posInf => .posInf
  | .posInf, .negInf => .negInf
  | .negInf, .posInf => .negInf
  | .negInf, .negInf => .posInf
  | .posInf, .fin b => if b = 0 then .nan else if 0 < b then .posInf else .negInf
  | .fin a, .posInf => if a = 0 then .nan else if 0 < a then .posInf else .negInf
  | .negInf, .fin b => if b = 0 then .nan else if 0 < b then .negInf else .posInf
  | .fin a, .negInf => if a = 0 then .nan else if 0 < a then .negInf else .posInf

/-- JS division: `x / 0` is an infinity for `x ≠ 0` and NaN for `x = 0`. -/
def jdiv : JSNum → JSNum → JSNum
  | .nan, _ => .nan
  | _, .nan => .nan
  | .posInf, .posInf => .nan
  | .posInf, .negInf => .nan
  | .negInf, .posInf => .nan
  | .negInf, .negInf => .nan
  | .posInf, .fin b => if 0 ≤ b then .posInf else .negInf
  | .negInf, .fin b => if 0 ≤ b then .negInf else .posInf
  | .fin _, .posInf => .fin 0
  | .fin _, .negInf => .fin 0
  | .fin a, .fin b =>
      if b = 0 then (if a = 0 then .nan else if 0 < a then .posInf else .negInf)
      else .fin (a / b)

/-- JS strict comparison `<` (false whenever an operand is NaN). -/
def jlt : JSNum → JSNum → Bool
  | .nan, _ => false
  | _, .nan => false
  | .fin a, .fin b => decide (a < b)
  | .negInf, .negInf => false
  | .negInf, _ => true
  | _, .negInf => false
  | .posInf, .posInf => false
  | .fin _, .posInf => true
  | .posInf, .fin _ => false

/-- JS comparison `<=` (false whenever an operand is NaN). -/
def jle : JSNum → JSNum → Bool
  | .nan, _ => false
  | _, .nan => false
  | .fin a, .fin b => decide (a ≤ b)
  | .negInf, _ => true
  | _, .negInf => false
  | _, .posInf => true
  | .posInf, .fin _ => false

/-- JS comparison `>`. -/
def jgt (a b : JSNum) : Bool := jlt b a

/-- JS comparison `>=`. -/
def jge (a b : JSNum) : Bool := jle b a

@[simp] theorem jadd_fin_fin (a b : ℚ) : jadd (.fin a) (.fin b) = .fin (a + b) := rfl

@[simp] theorem jneg_fin (a : ℚ) : jneg (.fin a) = .fin (-a) := rfl

@[simp] theorem jsub_fin_fin (a b : ℚ) : jsub (.fin a) (.fin b) = .fin (a - b) := by
  simp [jsub, jadd, sub_eq_add_neg]

@[simp] theorem jmul_fin_fin (a b : ℚ) : jmul (.fin a) (.fin b) = .fin (a * b) := rfl

theorem jdiv_fin_fin {b : ℚ} (a : ℚ) (hb : b ≠ 0) :
    jdiv (.fin a) (.fin b) = .fin (a / b) := by
  simp [jdiv, hb]

theorem jdiv_fin_zero_pos {a : ℚ} (ha : 0 < a) :
    jdiv (.fin a) (.fin 0) = .posInf := by
  simp [jdiv, ha, ha.ne']

theorem jmul_posInf_fin_pos {b : ℚ} (hb : 0 < b) :
    jmul .posInf (.fin b) = .posInf := by
  simp [jmul, hb, hb.ne']

end JSNum

/-!
The reward model (`RewardsService.fetchRewards`, lines 49-136 of
`src/ts/src/monthly-profitability/index.ts`; the inline copy in
`src/unnamed/part_005` lines 83-164 is textually identical in these
computations).  A Trillium API row carries the fields the code reads.
All reward figures are finite in practice, so they are plain rationals
here; the JS `|| 0` guards on the per-epoch path only replace a falsy
(0 or NaN) product by 0, which is the identity on finite data.
-/

/-- One row of the Trillium validator-rewards API, with the fields the
code reads (`epoch`, `total_inflation_reward`, `commission`, `mev_earned`,
`mev_commission`, `rewards`, `vote_cost`). -/
structure TrilliumRecord where
  epoch : ℤ
  total_inflation_reward : ℚ
  commission : ℚ
  mev_earned : ℚ
  mev_commission : ℚ
  rewards : ℚ
  vote_cost : ℚ
  deriving DecidableEq, Repr

/-- The five accumulators of `fetchRewards` (`totalVoteRewards`,
`totalJitoRewards`, `totalBlockRewards`, `totalBlocksWithRewards`,
`totalVoteCost`). -/
structure Totals where
  totalVoteRewards : ℚ
  totalJitoRewards : ℚ
  totalBlockRewards : ℚ
  totalBlocksWithRewards : ℚ
  totalVoteCost : ℚ
  deriving DecidableEq, Repr

namespace Totals

/-- Field-wise sum of two accumulator states. -/
def add (a b : Totals) : Totals :=
  ⟨a.totalVoteRewards + b.totalVoteRewards,
   a.totalJitoRewards + b.totalJitoRewards,
   a.totalBlockRewards + b.totalBlockRewards,
   a.totalBlocksWithRewards + b.totalBlocksWithRewards,
   a.totalVoteCost + b.totalVoteCost⟩

/-- The zero accumulator state (all five variables start at 0). -/
def zero : Totals := ⟨0, 0, 0, 0, 0⟩

instance : Add Totals := ⟨add⟩

instance : Zero Totals := ⟨zero⟩

theorem add_def (a b : Totals) :
    a + b = ⟨a.totalVoteRewards + b.totalVoteRewards,
      a.totalJitoRewards + b.totalJitoRewards,
      a.totalBlockRewards + b.totalBlockRewards,
      a.totalBlocksWithRewards + b.totalBlocksWithRewards,
      a.totalVoteCost + b.totalVoteCost⟩ := rfl

theorem zero_def :
    (0 : Totals) = ⟨0, 0, 0, 0, 0⟩ := rfl

@[simp] theorem zero_vote : (0 : Totals).totalVoteRewards = 0 := rfl

@[simp] theorem zero_jito : (0 : Totals).totalJitoRewards = 0 := rfl

@[simp] theorem zero_block : (0 : Totals).totalBlockRewards = 0 := rfl

@[simp] theorem zero_blocksWith : (0 : Totals).totalBlocksWithRewards = 0 := rfl

@[simp] theorem zero_voteCost : (0 : Totals).totalVoteCost = 0 := rfl

instance : AddCommMonoid Totals where
  add_assoc a b c := by
    simp only [add_def, mk.injEq]
    refine ⟨?_, ?_, ?_, ?_, ?_⟩ <;> ring
  zero_add a := by simp [add_def, zero_def]
  add_zero a := by simp [add_def, zero_def]
  add_comm a b := by
    simp only [add_def, mk.injEq]
    refine ⟨?_, ?_, ?_, ?_, ?_⟩ <;> ring
  nsmul := nsmulRec

end Totals

/-- Contribution of one bulk-API row to the accumulators (lines 69-75):
vote rewards scaled by `commission / 100`, Jito rewards by
`mev_commission / 10_000`, block rewards and vote cost unscaled, and the
`rewards > 0 ? 1 : 0` block counter. -/
def bulkContribution (r : TrilliumRecord) : Totals :=
  ⟨r.total_inflation_reward * (r.commission / 100),
   r.mev_earned * (r.mev_commission / 10000),
   r.rewards,
   if 0 < r.rewards then 1 else 0,
   r.vote_cost⟩

/-- Contribution of one per-epoch-API row (lines 93-102 and 116-125):
same scaling as the bulk path, but `totalBlocksWithRewards` is not
incremented on this path.  The JS `|| 0` guards are the identity on
finite data and are omitted. -/
def epochApiContribution (r : TrilliumRecord) : Totals :=
  ⟨r.total_inflation_reward * (r.commission / 100),
   r.mev_earned * (r.mev_commission / 10000),
   r.rewards,
   0,
   r.vote_cost⟩

/-- The bulk-path loop (lines 67-77): each row whose `epoch` satisfies
`startEpoch ≤ epoch < endEpoch` adds its contribution; addition of
rationals is commutative and associative, so the fold order is
irrelevant. -/
def aggregate : List TrilliumRecord → ℤ → ℤ → Totals
  | [], _, _ => 0
  | r :: rs, s, e =>
      (if s ≤ r.epoch ∧ r.epoch < e then bulkContribution r else 0) + aggregate rs s e

/-- The integer epochs of the closed-open range `[lo, hi)`, in ascending
order. -/
def epochRange (lo hi : ℤ) : List ℤ :=
  (List.range (hi - lo).toNat).map (fun k => lo + k)

/-- Sum of the per-epoch-API contributions over `[lo, hi)`.  The function
`perEpoch` is the matching entry of
`trilliumData.find(v => v.vote_account_pubkey === this.voteAccountAddress)`
for each epoch: `none` models an epoch with no entry for this validator
(the `if (validatorData)` guard skips it). -/
def rangeSum (perEpoch : ℤ → Option TrilliumRecord) (lo hi : ℤ) : Totals :=
  ((epochRange lo hi).map fun k =>
    match perEpoch k with
    | some r => epochApiContribution r
    | none => 0).foldr (· + ·) 0

/-- `Math.min(...l)` on the epochs of the bulk response (lines 79-81):
`none` is JavaScript `Infinity`, the value of `Math.min()` on an empty
argument list. -/
def jsMinEpochs (l : List ℤ) : Option ℤ :=
  l.foldr (fun x acc => some (match acc with | none => x | some y => min x y)) none

/-- The loop guard `epoch < earliestEpochInAPI` where the bound may be
`Infinity` (`none`). -/
def ltJsInf (k : ℤ) (b : Option ℤ) : Bool :=
  match b with
  | none => true
  | some m => decide (k < m)

/-- The first epoch of `[lo, hi)` (with `hi` possibly `Infinity`) whose
per-epoch request fails, given the set of failing epochs of one loop
execution; `none` when the loop runs to completion. -/
def firstFailIn (failSet : List ℤ) (lo : ℤ) (hi : Option ℤ) : Option ℤ :=
  (failSet.filter fun x => decide (lo ≤ x) && ltJsInf x hi).foldr
    (fun x acc => match acc with | none => some x | some y => some (min x y)) none

/-- Outcome of `fetchRewards`: a returned accumulator state, an escaped
exception (a fetch inside the `catch` fallback failed and nothing caught
it), or non-termination of the gap-fill loop (its bound is `Infinity` and
no request ever fails). -/
inductive FetchResult where
  | ok (t : Totals)
  | threw
  | diverges
  deriving DecidableEq, Repr

/-- `RewardsService.fetchRewards` (lines 49-136).  `bulk` is the parsed
bulk response (`none` when the bulk request itself throws), `perEpoch`
the per-epoch provider's entry for this validator, `gapFail` the epochs
whose per-epoch request fails inside the `try` block, `fallbackFail`
those that fail inside the `catch` fallback (a transient failure may
succeed on the second attempt).  The accumulators are outer mutable
variables in the source, so a throw inside the `try` block keeps the
partial sums and the `catch` fallback adds the whole range `[s, e)` on
top of them. -/
def fetchRewards (bulk : Option (List TrilliumRecord))
    (perEpoch : ℤ → Option TrilliumRecord)
    (gapFail fallbackFail : List ℤ) (s e : ℤ) : FetchResult :=
  let runCatch : Totals → FetchResult := fun acc =>
    match firstFailIn fallbackFail s (some e) with
    | none => .ok (acc + rangeSum perEpoch s e)
    | some _ => .threw
  match bulk with
  | none => runCatch 0
  | some recs =>
      let acc := aggregate recs s e
      match jsMinEpochs (recs.map (·.epoch)) with
      | none =>
          match firstFailIn gapFail s none with
          | none => .diverges
          | some f => runCatch (acc + rangeSum perEpoch s f)
      | some m =>
          if s < m then
            match firstFailIn gapFail s (some m) with
            | none => .ok (acc + rangeSum perEpoch s m)
            | some f => runCatch (acc + rangeSum perEpoch s f)
          else .ok acc

/-!
Calendar model for `getMostRecentBillingDate` (lines 277-284).  A
`JSDate` is a calendar day with a JavaScript 0-based month.  The JS
constructor `new Date(year, month, day)` normalises an out-of-range day
by rolling into the following month; the code only calls it with
`0 ≤ month ≤ 11` and `1 ≤ day ≤ 31`, for which at most one month of
rollover can occur, and `mkDateNorm` is faithful on that domain.
-/

/-- A calendar date: year, 0-based month, 1-based day of month. -/
structure JSDate where
  year : ℤ
  month : ℤ
  day : ℤ
  deriving DecidableEq, Repr

/-- Gregorian leap-year rule. -/
def isLeapYear (y : ℤ) : Bool :=
  (y % 4 == 0 && y % 100 != 0) || y % 400 == 0

/-- Days in a 0-based month of a given year. -/
def daysInMonth (y m : ℤ) : ℤ :=
  if m = 1 then (if isLeapYear y then 29 else 28)
  else if m = 3 ∨ m = 5 ∨ m = 8 ∨ m = 10 then 30
  else 31

/-- `new Date(y, m, d)` for `0 ≤ m ≤ 11`, `1 ≤ d ≤ 31`: a day past the
end of the month rolls into the next month (and December into January of
the next year). -/
def mkDateNorm (y m d : ℤ) : JSDate :=
  if d ≤ daysInMonth y m then ⟨y, m, d⟩
  else if m = 11 then ⟨y + 1, 0, d - daysInMonth y m⟩
  else ⟨y, m + 1, d - daysInMonth y m⟩

/-- Strict calendar order on dates (year, then month, then day). -/
def dateLT (a b : JSDate) : Prop :=
  a.year < b.year ∨ (a.year = b.year ∧
    (a.month < b.month ∨ (a.month = b.month ∧ a.day < b.day)))

instance (a b : JSDate) : Decidable (dateLT a b) := by
  unfold dateLT; infer_instance

/-- Non-strict calendar order on dates. -/
def dateLE (a b : JSDate) : Prop := dateLT a b ∨ a = b

instance (a b : JSDate) : Decidable (dateLE a b) := by
  unfold dateLE; infer_instance

/-- `MonthlyProfitabilityBot.getMostRecentBillingDate` (lines 277-284),
with the clock (`new Date()`) passed in as `today`:
month is the current month when `currentDay >= targetDay` else the
previous one, the year rolls back with a negative month, and the result
is `new Date(year, (month + 12) % 12, targetDay)`. -/
def getMostRecentBillingDate (today : JSDate) (targetDay : ℤ) : JSDate :=
  let month := if targetDay ≤ today.day then today.month else today.month - 1
  let year := if month < 0 then today.year - 1 else today.year
  mkDateNorm year ((month + 12) % 12) targetDay

/-!
The epoch resolver (lines 323-336 of the named file; identical in
`src/unnamed/part_005` lines 65-80): a target date is mapped to a slot by
linear extrapolation from a recent (slot, timestamp) pair at 0.4 seconds
per slot, the slot is clamped to be non-negative, and the epoch-schedule
lookup (`epochSchedule.getEpochAndSlotIndex(startSlot)[0]`, an external
collaborator, here the parameter `schedFn`) is clamped with `Math.max(0, ·)`.
-/

/-- The epoch-resolution computation of `MonthlyProfitabilityBot.run`:
`targetMs` is `startDate.getTime()`, `recentTimestamp` is in seconds. -/
def resolveEpoch (targetMs recentSlot recentTimestamp : ℤ)
    (schedFn : ℤ → ℤ) : ℤ :=
  let secondsDifference : ℚ := (targetMs : ℚ) / 1000 - (recentTimestamp : ℚ)
  let startSlot := recentSlot + ⌊secondsDifference / (2 / 5)⌋
  let clampedSlot := if startSlot < 0 then 0 else startSlot
  max 0 (schedFn clampedSlot)

/-!
The billing-cycle arithmetic.  `ProfitabilityReportService.generateReport`
(lines 145-242 of the named file) and the inline variant in
`src/unnamed/part_005` (lines 166-200) take the same numeric inputs:
the cycle instants (as `getTime()` milliseconds), the fetched reward
totals (the `ValidatorRewards` shape is exactly `Totals`), the monthly
base expense, the reimbursement percentage and the oracle price.  All
inputs are finite; the JS specials arise only from the divisions, so the
computation runs in `JSNum`.
-/

open JSNum

/-- The numeric inputs of a report computation. -/
structure ReportInputs where
  startMs : ℤ
  currentMs : ℤ
  endMs : ℤ
  rewards : Totals
  monthlyExpenses : ℚ
  voteCostReimbursement : ℚ
  solanaPrice : ℚ
  deriving DecidableEq, Repr

/-- Every intermediate value of `generateReport` (lines 157-186). -/
structure GRCalc where
  reimbursedVoteCost : JSNum
  totalRevenueSOL : JSNum
  netGainSOL : JSNum
  elapsedMs : JSNum
  totalCycleMs : JSNum
  elapsedPct : JSNum
  projectedMonthlySOL : JSNum
  projectedMonthlyUSD : JSNum
  projectedProfitUSD : JSNum
  percentCovered : JSNum
  currentNetGainUSD : JSNum
  accruedExpensesUSD : JSNum
  currentProfitUSD : JSNum
  currentPercentCovered : JSNum
  deriving DecidableEq, Repr

/-- The arithmetic of `ProfitabilityReportService.generateReport`
(lines 157-186), step for step. -/
def generateReportCalc (i : ReportInputs) : GRCalc :=
  let reimbursedVoteCost :=
    jmul (.fin i.rewards.totalVoteCost)
      (jsub (.fin 1) (jdiv (.fin i.voteCostReimbursement) (.fin 100)))
  let totalRevenueSOL :=
    jadd (jadd (.fin i.rewards.totalVoteRewards) (.fin i.rewards.totalJitoRewards))
      (.fin i.rewards.totalBlockRewards)
  let netGainSOL := jsub totalRevenueSOL reimbursedVoteCost
  let elapsedMs : JSNum := .fin ((i.currentMs - i.startMs : ℤ) : ℚ)
  let totalCycleMs : JSNum := .fin ((i.endMs - i.startMs : ℤ) : ℚ)
  let elapsedPct := jmul (jdiv elapsedMs totalCycleMs) (.fin 100)
  let projectedMonthlySOL := jmul (jdiv netGainSOL elapsedMs) totalCycleMs
  let projectedMonthlyUSD := jmul projectedMonthlySOL (.fin i.solanaPrice)
  let projectedProfitUSD := jsub projectedMonthlyUSD (.fin i.monthlyExpenses)
  let percentCovered := jmul (jdiv projectedMonthlyUSD (.fin i.monthlyExpenses)) (.fin 100)
  let currentNetGainUSD := jmul netGainSOL (.fin i.solanaPrice)
  let accruedExpensesUSD := jdiv (jmul (.fin i.monthlyExpenses) elapsedMs) totalCycleMs
  let currentProfitUSD := jsub currentNetGainUSD accruedExpensesUSD
  let currentPercentCovered := jmul (jdiv currentNetGainUSD accruedExpensesUSD) (.fin 100)
  ⟨reimbursedVoteCost, totalRevenueSOL, netGainSOL, elapsedMs, totalCycleMs,
   elapsedPct, projectedMonthlySOL, projectedMonthlyUSD, projectedProfitUSD,
   percentCovered, currentNetGainUSD, accruedExpensesUSD, currentProfitUSD,
   currentPercentCovered⟩

/-- Every intermediate value of the `part_005` variant's report
arithmetic (lines 166-200). -/
structure RunCalc where
  reimbursedVoteCost : JSNum
  totalRevenueSOL : JSNum
  totalGainSOL : JSNum
  revenueUSD : JSNum
  voteCostUSD : JSNum
  monthlyTotalExpensesUSD : JSNum
  elapsedMs : JSNum
  totalCycleMs : JSNum
  elapsedPct : JSNum
  accruedBaseExpensesUSD : JSNum
  accruedTotalExpensesUSD : JSNum
  projectedRevenueUSD : JSNum
  projectedProfitUSD : JSNum
  projectedPercentCovered : JSNum
  percentCovered : JSNum
  deriving DecidableEq, Repr

/-- The arithmetic of `MonthlyProfitabilityBot.run` in
`src/unnamed/part_005` (lines 166-200), step for step: this variant
adds the fiat vote cost to both the monthly and the accrued expense
totals before the coverage and profit divisions. -/
def runCalc (i : ReportInputs) : RunCalc :=
  let reimbursedVoteCost :=
    jmul (.fin i.rewards.totalVoteCost)
      (jsub (.fin 1) (jdiv (.fin i.voteCostReimbursement) (.fin 100)))
  let totalRevenueSOL :=
    jadd (jadd (.fin i.rewards.totalVoteRewards) (.fin i.rewards.totalJitoRewards))
      (.fin i.rewards.totalBlockRewards)
  let totalGainSOL := jsub totalRevenueSOL reimbursedVoteCost
  let revenueUSD := jmul totalGainSOL (.fin i.solanaPrice)
  let voteCostUSD := jmul reimbursedVoteCost (.fin i.solanaPrice)
  let monthlyTotalExpensesUSD := jadd (.fin i.monthlyExpenses) voteCostUSD
  let elapsedMs : JSNum := .fin ((i.currentMs - i.startMs : ℤ) : ℚ)
  let totalCycleMs : JSNum := .fin ((i.endMs - i.startMs : ℤ) : ℚ)
  let elapsedPct := jmul (jdiv elapsedMs totalCycleMs) (.fin 100)
  let accruedBaseExpensesUSD := jdiv (jmul (.fin i.monthlyExpenses) elapsedMs) totalCycleMs
  let accruedTotalExpensesUSD := jadd accruedBaseExpensesUSD voteCostUSD
  let projectedRevenueUSD := jmul (jdiv revenueUSD elapsedMs) totalCycleMs
  let projectedProfitUSD := jsub projectedRevenueUSD monthlyTotalExpensesUSD
  let projectedPercentCovered :=
    jmul (jdiv projectedRevenueUSD monthlyTotalExpensesUSD) (.fin 100)
  let percentCovered := jmul (jdiv revenueUSD accruedTotalExpensesUSD) (.fin 100)
  ⟨reimbursedVoteCost, totalRevenueSOL, totalGainSOL, revenueUSD, voteCostUSD,
   monthlyTotalExpensesUSD, elapsedMs, totalCycleMs, elapsedPct,
   accruedBaseExpensesUSD, accruedTotalExpensesUSD, projectedRevenueUSD,
   projectedProfitUSD, projectedPercentCovered, percentCovered⟩

/-- `reimbursedVoteCost` as an exact rational. -/
def reimbQ (i : ReportInputs) : ℚ :=
  i.rewards.totalVoteCost * (1 - i.voteCostReimbursement / 100)

/-- `netGainSOL` (named `totalGainSOL` in `part_005`) as an exact
rational: total revenue minus the reimbursement-reduced vote cost. -/
def netGainQ (i : ReportInputs) : ℚ :=
  i.rewards.totalVoteRewards + i.rewards.totalJitoRewards +
    i.rewards.totalBlockRewards - reimbQ i

/-- The fiat value of the net gain (`currentNetGainUSD` / `revenueUSD`). -/
def revenueUSDQ (i : ReportInputs) : ℚ := netGainQ i * i.solanaPrice

/-- The fiat value of the reimbursement-reduced vote cost. -/
def voteCostUSDQ (i : ReportInputs) : ℚ := reimbQ i * i.solanaPrice

/-- Elapsed milliseconds of the cycle. -/
def elapsedQ (i : ReportInputs) : ℚ := ((i.currentMs - i.startMs : ℤ) : ℚ)

/-- Total milliseconds of the cycle. -/
def cycleQ (i : ReportInputs) : ℚ := ((i.endMs - i.startMs : ℤ) : ℚ)

/-- The elapsed-fraction-scaled monthly base expense. -/
def accruedBaseQ (i : ReportInputs) : ℚ :=
  i.monthlyExpenses * elapsedQ i / cycleQ i

/-!
Rendering of the report string (lines 188-241).  `Number.prototype.toFixed`
returns the literal strings "NaN", "Infinity" and "-Infinity" on the
specials; on finite values it renders a fixed number of decimals (the
rounding of the exact rational here is round-half-away-from-zero, an
idealisation of the IEEE behaviour that no claim inspects).
-/

/-- Left-pad a digit string with zeros to length `n`. -/
def padLeftZeros (s : String) (n : ℕ) : String :=
  String.mk (List.replicate (n - s.length) '0') ++ s

/-- `toFixed(d)` on a finite value. -/
def ratToFixed (q : ℚ) (d : ℕ) : String :=
  let scaled : ℤ := ⌊|q| * (10 : ℚ) ^ d + 1 / 2⌋
  let base : ℤ := (10 : ℤ) ^ d
  let sign := if q < 0 ∧ scaled ≠ 0 then "-" else ""
  if d = 0 then sign ++ toString (scaled / base)
  else sign ++ toString (scaled / base) ++ "." ++ padLeftZeros (toString (scaled % base)) d

/-- `toFixed(d)` on a JavaScript number. -/
def jsToFixed (n : JSNum) (d : ℕ) : String :=
  match n with
  | .nan => "NaN"
  | .posInf => "Infinity"
  | .negInf => "-Infinity"
  | .fin q => ratToFixed q d

/-- Template-literal interpolation of a finite number (`${x}`): integer
values print without a decimal point; JS decimal printing of non-integer
values is idealised as the fraction. -/
def jsDisplay (q : ℚ) : String :=
  if q.den = 1 then toString q.num else toString q

/-- The lines of the report string of `generateReport` (lines 188-241,
the array joined with newlines at line 241).  The two date strings stand
for `startDate.toISOString().split("T")[0]` and its `currentDate`
counterpart (external `Date` formatting). -/
def generateReportLines (i : ReportInputs) (startDateStr currentDateStr : String) :
    List String :=
  let c := generateReportCalc i
  let onTrackOutcome :=
    if jgt c.projectedMonthlyUSD (.fin i.monthlyExpenses) then "make profit"
    else "break even"
  let trackingStatus :=
    if jge c.projectedMonthlyUSD (.fin i.monthlyExpenses) then
      "✅ On track to " ++ onTrackOutcome ++ " (projected: " ++
        jsToFixed c.percentCovered 1 ++ "%)"
    else "⚠️ Behind pace (projected: " ++ jsToFixed c.percentCovered 1 ++ "%)"
  let status :=
    if jge c.currentPercentCovered (.fin 100) then
      "✅ You've covered your accrued expenses!"
    else "🟡 You've covered " ++ jsToFixed c.currentPercentCovered 2 ++
      "% of accrued expenses."
  ["🧾 Validator Profit Report",
   "SOL Price: $" ++ jsDisplay i.solanaPrice,
   "Period: " ++ startDateStr ++ " → " ++ currentDateStr,
   "",
   "---Revenues---",
   "Revenue: " ++ jsToFixed c.totalRevenueSOL 2 ++ " SOL ($" ++
     jsToFixed (jmul c.totalRevenueSOL (.fin i.solanaPrice)) 2 ++ ")",
   "• Vote rewards: " ++ ratToFixed i.rewards.totalVoteRewards 2 ++ " SOL",
   "• Block rewards: " ++ ratToFixed i.rewards.totalBlockRewards 2 ++ " SOL",
   "• Jito tips: " ++ ratToFixed i.rewards.totalJitoRewards 2 ++ " SOL",
   "",
   "---Expenses---",
   "• Vote costs: " ++ jsToFixed c.reimbursedVoteCost 2 ++ " SOL" ++
     (if 0 < i.voteCostReimbursement then
       " (" ++ jsDisplay i.voteCostReimbursement ++ "% reimbursed)" else ""),
   "• Monthly Base Expenses: $" ++ ratToFixed i.monthlyExpenses 2,
   "• Accrued Base Expenses: $" ++ jsToFixed c.accruedExpensesUSD 2,
   "",
   "Summary:",
   "• Net SOL Gained: " ++ jsToFixed c.netGainSOL 2 ++ " SOL ($" ++
     jsToFixed c.currentNetGainUSD 2 ++ ")",
   "• Current Period Profit: $" ++ jsToFixed c.currentProfitUSD 2,
   "• Elapsed: " ++ jsToFixed c.elapsedPct 2 ++ "%",
   "• Current Coverage: " ++ jsToFixed c.currentPercentCovered 2 ++ "%",
   "• Projected Monthly Net: " ++ jsToFixed c.projectedMonthlySOL 2 ++
     " SOL ($" ++ jsToFixed c.projectedMonthlyUSD 2 ++ ")",
   "• Projected Monthly Profit: $" ++ jsToFixed c.projectedProfitUSD 2,
   trackingStatus,
   status]

/-- The report service's vote-cost step stays finite. -/
theorem generateReportCalc_reimbursed (i : ReportInputs) :
    (generateReportCalc i).reimbursedVoteCost = .fin (reimbQ i) := by
  simp only [generateReportCalc]
  rw [jdiv_fin_fin _ (by norm_num : (100 : ℚ) ≠ 0)]
  simp [reimbQ]

/-- The net gain of `generateReport` as an exact rational. -/
theorem generateReportCalc_netGain (i : ReportInputs) :
    (generateReportCalc i).netGainSOL = .fin (netGainQ i) := by
  simp only [generateReportCalc]
  rw [jdiv_fin_fin _ (by norm_num : (100 : ℚ) ≠ 0)]
  simp [netGainQ, reimbQ]

/-- The realized fiat gain of `generateReport` as an exact rational. -/
theorem generateReportCalc_currentNetGain (i : ReportInputs) :
    (generateReportCalc i).currentNetGainUSD = .fin (revenueUSDQ i) := by
  simp only [generateReportCalc]
  rw [jdiv_fin_fin _ (by norm_num : (100 : ℚ) ≠ 0)]
  simp [revenueUSDQ, netGainQ, reimbQ]

/-- With a non-degenerate cycle the accrued expense of `generateReport`
is the elapsed-fraction-scaled monthly base expense, with no vote-cost
term. -/
theorem generateReportCalc_accrued (i : ReportInputs) (hc : cycleQ i ≠ 0) :
    (generateReportCalc i).accruedExpensesUSD = .fin (accruedBaseQ i) := by
  simp only [generateReportCalc]
  rw [show ((i.endMs - i.startMs : ℤ) : ℚ) = cycleQ i from rfl]
  rw [jmul_fin_fin, jdiv_fin_fin _ hc]
  simp [accruedBaseQ, elapsedQ]

/-- With non-zero elapsed time and accrued base expense, the realized
coverage of `generateReport` divides by the accrued base expense alone. -/
theorem generateReportCalc_currentCoverage (i : ReportInputs)
    (hc : cycleQ i ≠ 0) (hab : accruedBaseQ i ≠ 0) :
    (generateReportCalc i).currentPercentCovered =
      .fin (revenueUSDQ i / accruedBaseQ i * 100) := by
  simp only [generateReportCalc]
  rw [jdiv_fin_fin _ (by norm_num : (100 : ℚ) ≠ 0)]
  rw [show ((i.endMs - i.startMs : ℤ) : ℚ) = cycleQ i from rfl]
  rw [show ((i.currentMs - i.startMs : ℤ) : ℚ) = elapsedQ i from rfl]
  simp only [jsub_fin_fin, jmul_fin_fin, jadd_fin_fin]
  rw [jdiv_fin_fin _ hc]
  rw [show (i.monthlyExpenses * elapsedQ i / cycleQ i) = accruedBaseQ i from rfl]
  rw [jdiv_fin_fin _ hab, jmul_fin_fin]
  simp [revenueUSDQ, netGainQ, reimbQ]

/-- With non-zero elapsed time, the projected profit of `generateReport`
subtracts only the monthly base expense. -/
theorem generateReportCalc_projProfit (i : ReportInputs) (he : elapsedQ i ≠ 0) :
    (generateReportCalc i).projectedProfitUSD =
      .fin (revenueUSDQ i / elapsedQ i * cycleQ i - i.monthlyExpenses) := by
  simp only [generateReportCalc]
  rw [jdiv_fin_fin _ (by norm_num : (100 : ℚ) ≠ 0)]
  rw [show ((i.endMs - i.startMs : ℤ) : ℚ) = cycleQ i from rfl]
  rw [show ((i.currentMs - i.startMs : ℤ) : ℚ) = elapsedQ i from rfl]
  simp only [jsub_fin_fin, jmul_fin_fin, jadd_fin_fin]
  rw [jdiv_fin_fin _ he]
  simp only [jmul_fin_fin, jsub_fin_fin, JSNum.fin.injEq]
  simp [revenueUSDQ, netGainQ, reimbQ]
  ring

/-- The `part_005` variant's monthly total expense is the base expense
plus the fiat vote cost. -/
theorem runCalc_monthlyTotal (i : ReportInputs) :
    (runCalc i).monthlyTotalExpensesUSD =
      .fin (i.monthlyExpenses + voteCostUSDQ i) := by
  simp only [runCalc]
  rw [jdiv_fin_fin _ (by norm_num : (100 : ℚ) ≠ 0)]
  simp [voteCostUSDQ, reimbQ]

/-- The `part_005` variant's accrued total expense adds the fiat vote
cost to the scaled base expense. -/
theorem runCalc_accruedTotal (i : ReportInputs) (hc : cycleQ i ≠ 0) :
    (runCalc i).accruedTotalExpensesUSD =
      .fin (accruedBaseQ i + voteCostUSDQ i) := by
  simp only [runCalc]
  rw [jdiv_fin_fin _ (by norm_num : (100 : ℚ) ≠ 0)]
  rw [show ((i.endMs - i.startMs : ℤ) : ℚ) = cycleQ i from rfl]
  rw [show ((i.currentMs - i.startMs : ℤ) : ℚ) = elapsedQ i from rfl]
  simp only [jsub_fin_fin, jmul_fin_fin, jadd_fin_fin]
  rw [jdiv_fin_fin _ hc]
  rw [show (i.monthlyExpenses * elapsedQ i / cycleQ i) = accruedBaseQ i from rfl]
  simp [voteCostUSDQ, reimbQ, accruedBaseQ]

/-- With non-zero cycle and accrued total, the realized coverage of the
`part_005` variant divides by the vote-cost-inclusive accrued total. -/
theorem runCalc_coverage (i : ReportInputs) (hc : cycleQ i ≠ 0)
    (hat : accruedBaseQ i + voteCostUSDQ i ≠ 0) :
    (runCalc i).percentCovered =
      .fin (revenueUSDQ i / (accruedBaseQ i + voteCostUSDQ i) * 100) := by
  simp only [runCalc]
  rw [jdiv_fin_fin _ (by norm_num : (100 : ℚ) ≠ 0)]
  simp only [jsub_fin_fin, jmul_fin_fin, jadd_fin_fin]
  rw [jdiv_fin_fin]
  · simp only [jadd_fin_fin]
    rw [jdiv_fin_fin]
    · simp only [jmul_fin_fin, JSNum.fin.injEq]
      simp only [revenueUSDQ, netGainQ, reimbQ, voteCostUSDQ, accruedBaseQ,
        elapsedQ, cycleQ]
    · exact hat
  · exact hc

/-- With non-zero elapsed time, the projected profit of the `part_005`
variant subtracts the vote-cost-inclusive monthly total. -/
theorem runCalc_projProfit (i : ReportInputs) (he : elapsedQ i ≠ 0) :
    (runCalc i).projectedProfitUSD =
      .fin (revenueUSDQ i / elapsedQ i * cycleQ i -
        (i.monthlyExpenses + voteCostUSDQ i)) := by
  simp only [runCalc]
  rw [jdiv_fin_fin _ (by norm_num : (100 : ℚ) ≠ 0)]
  simp only [jsub_fin_fin, jmul_fin_fin, jadd_fin_fin]
  rw [jdiv_fin_fin]
  · simp only [jmul_fin_fin, jsub_fin_fin, JSNum.fin.injEq]
    simp only [revenueUSDQ, netGainQ, reimbQ, voteCostUSDQ, elapsedQ, cycleQ]
  · exact he

/-- Sum of `aggregate` over the consecutive sub-ranges of a list of cut
points `[c0, c1, ..., ck]`: `aggregate` over `[c0, c1)`, `[c1, c2)`, and
so on, added field-wise. -/
def aggregateOverCuts (recs : List TrilliumRecord) : List ℤ → Totals
  | [] => 0
  | [_] => 0
  | a :: b :: rest => aggregate recs a b + aggregateOverCuts recs (b :: rest)

/-- An empty range contributes nothing. -/
theorem aggregate_empty_range (recs : List TrilliumRecord) {s e : ℤ}
    (h : e ≤ s) : aggregate recs s e = 0 := by
  induction recs with
  | nil => rfl
  | cons r rs ih =>
      simp only [aggregate]
      rw [ih, if_neg (by omega : ¬(s ≤ r.epoch ∧ r.epoch < e)), add_zero]

/-- Splitting the closed-open range `[s, e)` at an interior point `m`
splits the aggregate: each record's epoch lies in exactly one half. -/
theorem aggregate_split (recs : List TrilliumRecord) {s m e : ℤ}
    (h1 : s ≤ m) (h2 : m ≤ e) :
    aggregate recs s e = aggregate recs s m + aggregate recs m e := by
  induction recs with
  | nil => simp [aggregate]
  | cons r rs ih =>
      simp only [aggregate]
      rw [ih]
      by_cases hsm : s ≤ r.epoch ∧ r.epoch < m
      · rw [if_pos ⟨hsm.1, by omega⟩, if_pos hsm,
          if_neg (by omega : ¬(m ≤ r.epoch ∧ r.epoch < e)), zero_add]
        exact (add_assoc _ _ _).symm
      · by_cases hme : m ≤ r.epoch ∧ r.epoch < e
        · rw [if_pos ⟨by omega, hme.2⟩, if_neg hsm, if_pos hme, zero_add]
          exact add_left_comm _ _ _
        · rw [if_neg (by omega : ¬(s ≤ r.epoch ∧ r.epoch < e)), if_neg hsm,
            if_neg hme]
          simp

/-- In a `≤`-chain the head is at most the last element. -/
theorem chain_head_le_last :
    ∀ {l : List ℤ} {s e : ℤ}, List.Chain' (· ≤ ·) l →
      l.head? = some s → l.getLast? = some e → s ≤ e := by
  intro l
  induction l with
  | nil => intro s e _ hh _; simp at hh
  | cons a rest ih =>
      intro s e hch hh hl
      have hs : a = s := by simpa using hh
      cases rest with
      | nil =>
          have he : a = e := by simpa using hl
          omega
      | cons b rest2 =>
          have hab : a ≤ b := (List.chain'_cons.mp hch).1
          have hbe : b ≤ e :=
            ih (List.chain'_cons.mp hch).2 rfl (by simpa using hl)
          omega

/-- With zero elapsed time, a positive net gain and a forward cycle, the
unguarded division of `generateReport` makes the projected SOL figure
`Infinity`. -/
theorem generateReportCalc_projSOL_inf (i : ReportInputs)
    (h0 : i.currentMs = i.startMs) (hcy : i.startMs < i.endMs)
    (hg : 0 < netGainQ i) :
    (generateReportCalc i).projectedMonthlySOL = .posInf := by
  simp only [generateReportCalc]
  rw [jdiv_fin_fin _ (by norm_num : (100 : ℚ) ≠ 0)]
  simp only [jsub_fin_fin, jmul_fin_fin, jadd_fin_fin]
  have hz : ((i.currentMs - i.startMs : ℤ) : ℚ) = 0 := by
    rw [h0]; simp
  rw [hz, jdiv_fin_zero_pos]
  · refine jmul_posInf_fin_pos ?_
    have : (0 : ℤ) < i.endMs - i.startMs := by omega
    exact_mod_cast this
  · exact hg

/-- The `Infinity` propagates through the price multiplication into
`projectedMonthlyUSD`. -/
theorem generateReportCalc_projUSD_inf (i : ReportInputs)
    (h0 : i.currentMs = i.startMs) (hcy : i.startMs < i.endMs)
    (hp : 0 < i.solanaPrice) (hg : 0 < netGainQ i) :
    (generateReportCalc i).projectedMonthlyUSD = .posInf := by
  have h := generateReportCalc_projSOL_inf i h0 hcy hg
  rw [show (generateReportCalc i).projectedMonthlyUSD =
    jmul ((generateReportCalc i).projectedMonthlySOL) (.fin i.solanaPrice) from rfl, h]
  exact jmul_posInf_fin_pos hp

/-- C1 (counterexample): with `elapsedMs = 0` (run at the exact cycle
start: `currentMs = startMs = 0`), a positive net gain and ordinary
remaining inputs, `generateReport` produces `Infinity`, not the claimed
sentinel 0: the division at line 173 is unguarded. -/
theorem spec_c1_counterexample :
    (generateReportCalc ⟨0, 0, 2592000000, ⟨1, 0, 0, 0, 0⟩, 100, 0, 1⟩).projectedMonthlyUSD
        = JSNum.posInf ∧
    JSNum.posInf ≠ JSNum.fin 0 :=
  ⟨by norm_num [generateReportCalc, JSNum.jdiv, JSNum.jmul, JSNum.jadd,
      JSNum.jsub, JSNum.jneg], by decide⟩

/-- C1 (amended): when `elapsedMs = 0`, no exception is raised and the
report is still rendered, but `projectedRevenueFiat` is `Infinity` (for a
positive net gain, positive price and forward cycle), and the `Infinity`
propagates into the rendered report line instead of a 0 sentinel. -/
theorem spec_c1_infinity_propagates (i : ReportInputs) (sd cd : String)
    (h0 : i.currentMs = i.startMs) (hcy : i.startMs < i.endMs)
    (hp : 0 < i.solanaPrice) (hg : 0 < netGainQ i) :
    (generateReportCalc i).projectedMonthlyUSD = JSNum.posInf ∧
    (generateReportLines i sd cd).get? 20 =
      some "• Projected Monthly Net: Infinity SOL ($Infinity)" := by
  have hUSD := generateReportCalc_projUSD_inf i h0 hcy hp hg
  have hSOL := generateReportCalc_projSOL_inf i h0 hcy hg
  refine ⟨hUSD, ?_⟩
  have hline : (generateReportLines i sd cd).get? 20 =
      some ("• Projected Monthly Net: " ++
        jsToFixed (generateReportCalc i).projectedMonthlySOL 2 ++
        " SOL ($" ++ jsToFixed (generateReportCalc i).projectedMonthlyUSD 2 ++ ")") := rfl
  rw [hline, hSOL, hUSD]
  rfl

/-- C1 (witness): the amended statement at the concrete counterexample
input. -/
theorem spec_c1_infinity_propagates_witness :
    ((0 : ℤ) = 0 ∧ (0 : ℤ) < 2592000000 ∧ (0 : ℚ) < 1 ∧
      0 < netGainQ ⟨0, 0, 2592000000, ⟨1, 0, 0, 0, 0⟩, 100, 0, 1⟩) ∧
    ((generateReportCalc ⟨0, 0, 2592000000, ⟨1, 0, 0, 0, 0⟩, 100, 0, 1⟩).projectedMonthlyUSD
        = JSNum.posInf ∧
      (generateReportLines ⟨0, 0, 2592000000, ⟨1, 0, 0, 0, 0⟩, 100, 0, 1⟩
          "2025-05-01" "2025-05-01").get? 20 =
        some "• Projected Monthly Net: Infinity SOL ($Infinity)") :=
  ⟨⟨rfl, by decide, by norm_num, by norm_num [netGainQ, reimbQ]⟩,
    spec_c1_infinity_propagates _ "2025-05-01" "2025-05-01" rfl (by decide)
      (by norm_num) (by norm_num [netGainQ, reimbQ])⟩

/-- C3 (counterexample): `monthlyExpenses = 100`, half the cycle elapsed,
price 1, vote rewards 20 SOL, vote cost 10 SOL, no reimbursement.  The
realized coverage of `generateReport` is `10 / 50 × 100 = 20`, but the
claimed vote-cost-inclusive denominator gives `10 / 60 × 100 = 50/3`. -/
theorem spec_c3_counterexample :
    (generateReportCalc ⟨0, 500, 1000, ⟨20, 0, 0, 0, 10⟩, 100, 0, 1⟩).currentPercentCovered
        = JSNum.fin 20 ∧
    JSNum.fin 20 ≠ JSNum.fin
      (revenueUSDQ ⟨0, 500, 1000, ⟨20, 0, 0, 0, 10⟩, 100, 0, 1⟩ /
        (accruedBaseQ ⟨0, 500, 1000, ⟨20, 0, 0, 0, 10⟩, 100, 0, 1⟩ +
          voteCostUSDQ ⟨0, 500, 1000, ⟨20, 0, 0, 0, 10⟩, 100, 0, 1⟩) * 100) :=
  ⟨by norm_num [generateReportCalc, JSNum.jdiv, JSNum.jmul, JSNum.jadd,
      JSNum.jsub, JSNum.jneg],
    by norm_num [revenueUSDQ, netGainQ, reimbQ, accruedBaseQ, voteCostUSDQ,
      elapsedQ, cycleQ]⟩

/-- C3 (amended): the two report variants differ.  In the `part_005`
variant the realized coverage divides by the vote-cost-inclusive accrued
total, as the claim states; in `ProfitabilityReportService.generateReport`
the denominator is the accrued base expense alone, with no vote-cost
component. -/
theorem spec_c3_coverage_denominators (i : ReportInputs)
    (hc : cycleQ i ≠ 0) (hab : accruedBaseQ i ≠ 0)
    (hat : accruedBaseQ i + voteCostUSDQ i ≠ 0) :
    (runCalc i).percentCovered =
      .fin (revenueUSDQ i / (accruedBaseQ i + voteCostUSDQ i) * 100) ∧
    (generateReportCalc i).currentPercentCovered =
      .fin (revenueUSDQ i / accruedBaseQ i * 100) :=
  ⟨runCalc_coverage i hc hat, generateReportCalc_currentCoverage i hc hab⟩

/-- C3 (witness): the amended statement at the counterexample input. -/
theorem spec_c3_coverage_denominators_witness :
    (cycleQ ⟨0, 500, 1000, ⟨20, 0, 0, 0, 10⟩, 100, 0, 1⟩ ≠ 0 ∧
      accruedBaseQ ⟨0, 500, 1000, ⟨20, 0, 0, 0, 10⟩, 100, 0, 1⟩ ≠ 0 ∧
      accruedBaseQ ⟨0, 500, 1000, ⟨20, 0, 0, 0, 10⟩, 100, 0, 1⟩ +
        voteCostUSDQ ⟨0, 500, 1000, ⟨20, 0, 0, 0, 10⟩, 100, 0, 1⟩ ≠ 0) ∧
    ((runCalc ⟨0, 500, 1000, ⟨20, 0, 0, 0, 10⟩, 100, 0, 1⟩).percentCovered =
      .fin (revenueUSDQ ⟨0, 500, 1000, ⟨20, 0, 0, 0, 10⟩, 100, 0, 1⟩ /
        (accruedBaseQ ⟨0, 500, 1000, ⟨20, 0, 0, 0, 10⟩, 100, 0, 1⟩ +
          voteCostUSDQ ⟨0, 500, 1000, ⟨20, 0, 0, 0, 10⟩, 100, 0, 1⟩) * 100) ∧
    (generateReportCalc ⟨0, 500, 1000, ⟨20, 0, 0, 0, 10⟩, 100, 0, 1⟩).currentPercentCovered =
      .fin (revenueUSDQ ⟨0, 500, 1000, ⟨20, 0, 0, 0, 10⟩, 100, 0, 1⟩ /
        accruedBaseQ ⟨0, 500, 1000, ⟨20, 0, 0, 0, 10⟩, 100, 0, 1⟩ * 100)) :=
  ⟨⟨by norm_num [cycleQ], by norm_num [accruedBaseQ, elapsedQ, cycleQ],
      by norm_num [accruedBaseQ, voteCostUSDQ, reimbQ, elapsedQ, cycleQ]⟩,
    spec_c3_coverage_denominators _ (by norm_num [cycleQ])
      (by norm_num [accruedBaseQ, elapsedQ, cycleQ])
      (by norm_num [accruedBaseQ, voteCostUSDQ, reimbQ, elapsedQ, cycleQ])⟩

/-- C4 (counterexample): same inputs as C3's counterexample.
`generateReport` computes projected profit `20 - 100 = -80`; the claimed
vote-cost-inclusive monthly total gives `20 - 110 = -90`. -/
theorem spec_c4_counterexample :
    (generateReportCalc ⟨0, 500, 1000, ⟨20, 0, 0, 0, 10⟩, 100, 0, 1⟩).projectedProfitUSD
        = JSNum.fin (-80) ∧
    JSNum.fin (-80) ≠ JSNum.fin
      (revenueUSDQ ⟨0, 500, 1000, ⟨20, 0, 0, 0, 10⟩, 100, 0, 1⟩ /
          elapsedQ ⟨0, 500, 1000, ⟨20, 0, 0, 0, 10⟩, 100, 0, 1⟩ *
          cycleQ ⟨0, 500, 1000, ⟨20, 0, 0, 0, 10⟩, 100, 0, 1⟩ -
        ((100 : ℚ) + voteCostUSDQ ⟨0, 500, 1000, ⟨20, 0, 0, 0, 10⟩, 100, 0, 1⟩)) :=
  ⟨by norm_num [generateReportCalc, JSNum.jdiv, JSNum.jmul, JSNum.jadd,
      JSNum.jsub, JSNum.jneg],
    by norm_num [revenueUSDQ, netGainQ, reimbQ, voteCostUSDQ, elapsedQ, cycleQ]⟩

/-- C4 (amended): the two report variants differ.  The `part_005`
variant subtracts the vote-cost-inclusive monthly total from the
projected revenue, as the claim states; `generateReport` subtracts the
monthly base expense alone. -/
theorem spec_c4_projected_profit (i : ReportInputs) (he : elapsedQ i ≠ 0) :
    (runCalc i).projectedProfitUSD =
      .fin (revenueUSDQ i / elapsedQ i * cycleQ i -
        (i.monthlyExpenses + voteCostUSDQ i)) ∧
    (generateReportCalc i).projectedProfitUSD =
      .fin (revenueUSDQ i / elapsedQ i * cycleQ i - i.monthlyExpenses) :=
  ⟨runCalc_projProfit i he, generateReportCalc_projProfit i he⟩

/-- C4 (witness): the amended statement at the counterexample input. -/
theorem spec_c4_projected_profit_witness :
    elapsedQ ⟨0, 500, 1000, ⟨20, 0, 0, 0, 10⟩, 100, 0, 1⟩ ≠ 0 ∧
    ((runCalc ⟨0, 500, 1000, ⟨20, 0, 0, 0, 10⟩, 100, 0, 1⟩).projectedProfitUSD =
      .fin (revenueUSDQ ⟨0, 500, 1000, ⟨20, 0, 0, 0, 10⟩, 100, 0, 1⟩ /
          elapsedQ ⟨0, 500, 1000, ⟨20, 0, 0, 0, 10⟩, 100, 0, 1⟩ *
          cycleQ ⟨0, 500, 1000, ⟨20, 0, 0, 0, 10⟩, 100, 0, 1⟩ -
        ((⟨0, 500, 1000, ⟨20, 0, 0, 0, 10⟩, 100, 0, 1⟩ : ReportInputs).monthlyExpenses +
          voteCostUSDQ ⟨0, 500, 1000, ⟨20, 0, 0, 0, 10⟩, 100, 0, 1⟩)) ∧
    (generateReportCalc ⟨0, 500, 1000, ⟨20, 0, 0, 0, 10⟩, 100, 0, 1⟩).projectedProfitUSD =
      .fin (revenueUSDQ ⟨0, 500, 1000, ⟨20, 0, 0, 0, 10⟩, 100, 0, 1⟩ /
          elapsedQ ⟨0, 500, 1000, ⟨20, 0, 0, 0, 10⟩, 100, 0, 1⟩ *
          cycleQ ⟨0, 500, 1000, ⟨20, 0, 0, 0, 10⟩, 100, 0, 1⟩ -
        (⟨0, 500, 1000, ⟨20, 0, 0, 0, 10⟩, 100, 0, 1⟩ : ReportInputs).monthlyExpenses)) :=
  ⟨by norm_num [elapsedQ], spec_c4_projected_profit _ (by norm_num [elapsedQ])⟩

/-- C5: `getMostRecentBillingDate` can return a date after `today`.  On
2025-03-01 with billing day 31 the code builds `new Date(2025, 1, 31)`,
which normalises to 2025-03-03 — two days in the future, so the cycle
start exceeds `now` and elapsed time is negative, contradicting the
`start ≤ now` invariant (a rollover slip in the code, not in the claim). -/
theorem spec_c5_bug :
    getMostRecentBillingDate ⟨2025, 2, 1⟩ 31 = ⟨2025, 2, 3⟩ ∧
    dateLT ⟨2025, 2, 1⟩ (getMostRecentBillingDate ⟨2025, 2, 1⟩ 31) :=
  ⟨by decide, by decide⟩

/-- C6: for every target date, reference pair and schedule function, the
resolved epoch is non-negative: the slot estimate is clamped at 0 and
the schedule result passes through `Math.max(0, ·)`. -/
theorem spec_c6_zero_floor (targetMs recentSlot recentTimestamp : ℤ)
    (schedFn : ℤ → ℤ) :
    0 ≤ resolveEpoch targetMs recentSlot recentTimestamp schedFn :=
  le_max_left 0 _

/-- C7 (counterexample): the claim quantifies over every epoch-schedule
function, but the code only composes the clamped slot estimate with the
injected lookup, so a non-monotone lookup breaks monotonicity: with the
schedule `fun s => if s ≤ 0 then 5 else 0` the earlier date resolves to
epoch 5 and the later one to epoch 0. -/
theorem spec_c7_counterexample :
    (0 : ℤ) < 400000 ∧
    ¬(resolveEpoch 0 0 0 (fun s => if s ≤ 0 then 5 else 0) ≤
      resolveEpoch 400000 0 0 (fun s => if s ≤ 0 then 5 else 0)) :=
  ⟨by decide, by norm_num [resolveEpoch]⟩

/-- C7 (amended): for a monotone epoch-schedule function (which any real
epoch schedule is), the resolution is monotone in the target date, for
any shared reference pair. -/
theorem spec_c7_monotone (refSlot refTs d1 d2 : ℤ) (f : ℤ → ℤ)
    (hf : Monotone f) (h12 : d1 < d2) :
    resolveEpoch d1 refSlot refTs f ≤ resolveEpoch d2 refSlot refTs f := by
  simp only [resolveEpoch]
  refine max_le_max le_rfl (hf ?_)
  have hfl : ⌊((d1 : ℚ) / 1000 - (refTs : ℚ)) / (2 / 5)⌋ ≤
      ⌊((d2 : ℚ) / 1000 - (refTs : ℚ)) / (2 / 5)⌋ := by
    apply Int.floor_le_floor
    gcongr
  split_ifs <;> omega

/-- C7 (witness): the amended statement at the identity schedule. -/
theorem spec_c7_monotone_witness :
    (Monotone (fun s : ℤ => s) ∧ (0 : ℤ) < 1000) ∧
    resolveEpoch 0 0 0 (fun s => s) ≤ resolveEpoch 1000 0 0 (fun s => s) :=
  ⟨⟨fun _ _ h => h, by decide⟩,
    spec_c7_monotone 0 0 0 1000 (fun s => s) (fun _ _ h => h) (by decide)⟩

/-- C8: aggregating a full epoch range equals the field-wise sum of the
aggregates of the contiguous sub-ranges cut by any monotone list of cut
points running from the range's start to its end. -/
theorem spec_c8_additivity (recs : List TrilliumRecord) (cuts : List ℤ)
    (s e : ℤ) (hch : List.Chain' (· ≤ ·) cuts)
    (hh : cuts.head? = some s) (hl : cuts.getLast? = some e) :
    aggregateOverCuts recs cuts = aggregate recs s e := by
  induction cuts generalizing s with
  | nil => simp at hh
  | cons a rest ih =>
      have hs : a = s := by simpa using hh
      cases rest with
      | nil =>
          have he : a = e := by simpa using hl
          subst hs
          subst he
          simp only [aggregateOverCuts]
          exact (aggregate_empty_range recs le_rfl).symm
      | cons b rest2 =>
          have hab : a ≤ b := (List.chain'_cons.mp hch).1
          have hch2 : List.Chain' (· ≤ ·) (b :: rest2) :=
            (List.chain'_cons.mp hch).2
          have hl2 : (b :: rest2).getLast? = some e := by simpa using hl
          have hbe : b ≤ e := chain_head_le_last hch2 rfl hl2
          subst hs
          simp only [aggregateOverCuts]
          rw [ih b hch2 rfl hl2]
          exact (aggregate_split recs hab hbe).symm

/-- C8 (witness): a two-cut partition of `[2, 9)` over two records. -/
theorem spec_c8_additivity_witness :
    (List.Chain' (· ≤ ·) [(2 : ℤ), 5, 9] ∧
      ([(2 : ℤ), 5, 9].head? = some 2) ∧ ([(2 : ℤ), 5, 9].getLast? = some 9)) ∧
    aggregateOverCuts
        [(⟨3, 100, 10, 0, 0, 5, 1⟩ : TrilliumRecord), ⟨7, 200, 5, 0, 0, 0, 2⟩]
        [(2 : ℤ), 5, 9] =
      aggregate
        [(⟨3, 100, 10, 0, 0, 5, 1⟩ : TrilliumRecord), ⟨7, 200, 5, 0, 0, 0, 2⟩]
        2 9 :=
  ⟨⟨by norm_num [List.chain'_cons], rfl, rfl⟩,
    spec_c8_additivity _ _ _ _ (by norm_num [List.chain'_cons]) rfl rfl⟩

/-- C9: an empty bulk response makes `Math.min(...)` evaluate to
`Infinity`, the gap-fill guard `epoch < earliestEpochInAPI` holds for
every integer epoch, and `fetchRewards` never terminates by reaching the
bound (modelled as the `diverges` outcome). -/
theorem spec_c9_unbounded_gap_fill (perEpoch : ℤ → Option TrilliumRecord)
    (s e : ℤ) :
    jsMinEpochs ([] : List ℤ) = none ∧
    (∀ k : ℤ, ltJsInf k (jsMinEpochs []) = true) ∧
    fetchRewards (some []) perEpoch [] [] s e = .diverges :=
  ⟨rfl, fun _ => rfl, rfl⟩

/-- C10: the catch-branch fallback is not atomic.  Bulk returns the
record of epoch 1 (vote contribution 10); the gap-fill fetch of epoch 0
fails; the fallback then re-iterates all of `[0, 2)` on top of the
non-reset accumulators, so epoch 1's vote reward is counted twice: the
returned total is 20 while aggregating the range once gives 10. -/
theorem spec_c10_double_count :
    fetchRewards (some [(⟨1, 100, 10, 0, 0, 0, 0⟩ : TrilliumRecord)])
        (fun k => if k = 0 then some (⟨0, 0, 0, 0, 0, 0, 0⟩ : TrilliumRecord)
          else if k = 1 then some ⟨1, 100, 10, 0, 0, 0, 0⟩ else none)
        [0] [] 0 2 =
      .ok ⟨20, 0, 0, 0, 0⟩ ∧
    (20 : ℚ) =
      2 * (aggregate [(⟨1, 100, 10, 0, 0, 0, 0⟩ : TrilliumRecord)] 0 2).totalVoteRewards :=
  ⟨by norm_num [fetchRewards, aggregate, rangeSum, epochRange, jsMinEpochs,
      firstFailIn, ltJsInf, bulkContribution, epochApiContribution,
      Totals.add_def, Totals.zero_def, List.range, List.range.loop],
    by norm_num [aggregate, bulkContribution, Totals.add_def]⟩

/-- C2 (counterexample): bulk returns epoch 5 only; in the gap-fill over
`[3, 5)` epoch 3 succeeds and epoch 4's request fails.  Were the failure
recorded as a warning with only epoch 4 skipped, the totals would be
`aggregate bulk + rangeSum 3 4` = ⟨40, 0, 2, 1, 2⟩; the code instead
returns ⟨120, 0, 4, 1, 5⟩, re-adding epochs 3 and 5 via the fallback. -/
theorem spec_c2_counterexample :
    fetchRewards (some [(⟨5, 10, 100, 0, 0, 2, 1⟩ : TrilliumRecord)])
        (fun k => if k = 3 then some (⟨3, 30, 100, 0, 0, 0, 1⟩ : TrilliumRecord)
          else if k = 4 then some ⟨4, 40, 100, 0, 0, 0, 1⟩
          else if k = 5 then some ⟨5, 10, 100, 0, 0, 2, 1⟩ else none)
        [4] [] 3 6 =
      .ok ⟨120, 0, 4, 1, 5⟩ ∧
    (⟨120, 0, 4, 1, 5⟩ : Totals) ≠
      aggregate [(⟨5, 10, 100, 0, 0, 2, 1⟩ : TrilliumRecord)] 3 6 +
        rangeSum
          (fun k => if k = 3 then some (⟨3, 30, 100, 0, 0, 0, 1⟩ : TrilliumRecord)
            else if k = 4 then some ⟨4, 40, 100, 0, 0, 0, 1⟩
            else if k = 5 then some ⟨5, 10, 100, 0, 0, 2, 1⟩ else none)
          3 4 :=
  ⟨by norm_num [fetchRewards, aggregate, rangeSum, epochRange, jsMinEpochs,
      firstFailIn, ltJsInf, bulkContribution, epochApiContribution,
      Totals.add_def, Totals.zero_def, List.range, List.range.loop],
    by norm_num [aggregate, rangeSum, epochRange, bulkContribution,
      epochApiContribution, Totals.add_def, Totals.zero_def, Totals.mk.injEq,
      List.range, List.range.loop]⟩

/-- C2 (amended): a request-level failure of a single epoch's gap-fill
fetch is not recorded as a warning and does not merely skip that epoch:
the exception aborts the gap-fill, the `catch` fallback re-runs the
per-epoch loop over the whole `[startEpoch, endEpoch)` on top of the
already-accumulated totals (re-adding epochs already counted), and no
warnings are returned — the run continues only because the fallback
swallows the error. -/
theorem spec_c2_gap_failure_fallback (recs : List TrilliumRecord)
    (perEpoch : ℤ → Option TrilliumRecord) (gapFail fallbackFail : List ℤ)
    (s e m f : ℤ)
    (hm : jsMinEpochs (recs.map (·.epoch)) = some m)
    (hsm : s < m)
    (hf : firstFailIn gapFail s (some m) = some f)
    (hfb : firstFailIn fallbackFail s (some e) = none) :
    fetchRewards (some recs) perEpoch gapFail fallbackFail s e =
      .ok (aggregate recs s e + rangeSum perEpoch s f + rangeSum perEpoch s e) := by
  simp only [fetchRewards, hm, hf, hfb, if_pos hsm]

/-- C2 (witness): the amended statement at the counterexample scenario. -/
theorem spec_c2_gap_failure_fallback_witness :
    (jsMinEpochs ([(⟨5, 10, 100, 0, 0, 2, 1⟩ : TrilliumRecord)].map (·.epoch)) = some 5 ∧
      (3 : ℤ) < 5 ∧ firstFailIn [4] 3 (some 5) = some 4 ∧
      firstFailIn [] 3 (some 6) = none) ∧
    fetchRewards (some [(⟨5, 10, 100, 0, 0, 2, 1⟩ : TrilliumRecord)])
        (fun k => if k = 3 then some (⟨3, 30, 100, 0, 0, 0, 1⟩ : TrilliumRecord)
          else if k = 4 then some ⟨4, 40, 100, 0, 0, 0, 1⟩
          else if k = 5 then some ⟨5, 10, 100, 0, 0, 2, 1⟩ else none)
        [4] [] 3 6 =
      .ok (aggregate [(⟨5, 10, 100, 0, 0, 2, 1⟩ : TrilliumRecord)] 3 6 +
        rangeSum
          (fun k => if k = 3 then some (⟨3, 30, 100, 0, 0, 0, 1⟩ : TrilliumRecord)
            else if k = 4 then some ⟨4, 40, 100, 0, 0, 0, 1⟩
            else if k = 5 then some ⟨5, 10, 100, 0, 0, 2, 1⟩ else none)
          3 4 +
        rangeSum
          (fun k => if k = 3 then some (⟨3, 30, 100, 0, 0, 0, 1⟩ : TrilliumRecord)
            else if k = 4 then some ⟨4, 40, 100, 0, 0, 0, 1⟩
            else if k = 5 then some ⟨5, 10, 100, 0, 0, 2, 1⟩ else none)
          3 6) :=
  ⟨⟨rfl, by decide, rfl, rfl⟩,
    spec_c2_gap_failure_fallback _ _ _ _ _ _ _ _ rfl (by decide) rfl rfl⟩

end Validatools
